import Mathlib

/-!
Verification of the netpulse prober (src/main.go): the failure classifier,
the probe executor's metric-update behaviour, and the per-target scheduler
with its overlap guard and global concurrency slot pool.

The Go code is shallowly embedded: pure functions become Lean functions,
the probe's side effects become an explicit event trace, and the scheduler
loops become a small-step transition relation over an abstract state.
-/

namespace Netpulse

/-- Capacity of the global concurrency slot pool (`GlobalSlotSize = 10`). -/
def GlobalSlotSize : Nat := 10

/-- Reason code for success (`FailureNone = "none"`). -/
def FailureNone : String := "none"

/-- Reason code `context_canceled`. -/
def FailureContextCanceled : String := "context_canceled"

/-- Reason code `context_deadline`. -/
def FailureContextDeadline : String := "context_deadline"

/-- Reason code `dns_not_found`. -/
def FailureDNSNotFound : String := "dns_not_found"

/-- Reason code `dns_timeout`. -/
def FailureDNSTimeout : String := "dns_timeout"

/-- Reason code `dns_error`. -/
def FailureDNSError : String := "dns_error"

/-- Reason code `tls_hostname_mismatch`. -/
def FailureTLSHostnameMismatch : String := "tls_hostname_mismatch"

/-- Reason code `tls_untrusted_ca`. -/
def FailureTLSUntrustedCA : String := "tls_untrusted_ca"

/-- Reason code `tls_cert_invalid`. -/
def FailureTLSCertInvalid : String := "tls_cert_invalid"

/-- Reason code `timeout`. -/
def FailureTimeout : String := "timeout"

/-- Reason code `connection_refused`. -/
def FailureConnectionRefused : String := "connection_refused"

/-- Reason code `network_error`. -/
def FailureNetworkError : String := "network_error"

/-- Reason code `http_4xx`. -/
def FailureHTTP4xx : String := "http_4xx"

/-- Reason code `http_5xx`. -/
def FailureHTTP5xx : String := "http_5xx"

/-- Reason code `unknown`. -/
def FailureUnknown : String := "unknown"

/-- The `*net.DNSError` fields inspected by `classifyTransportError`:
`IsNotFound` and `IsTimeout`. -/
structure DNSErrorInfo where
  isNotFound : Bool
  isTimeout : Bool
deriving DecidableEq, Repr

/-- The `*net.OpError` data inspected by `classifyTransportError`: the wrapped
`Err` field, which may be nil (`none`) or carry an error message string. -/
structure OpErrorInfo where
  errMsg : Option String
deriving DecidableEq, Repr

/-- A Go `error` value as seen through the predicates the classifier applies.
Each field records whether the corresponding `errors.Is` / `errors.As` test
succeeds on the value, and the data extracted when it does.  A single Go
error value can satisfy several of these tests at once (for example a
`*net.DNSError` also implements `net.Error`), which is exactly what the
independent fields express.  Go's `nil` error fails every `errors.Is` and
`errors.As` test, so it is the record with all fields `false` / `none`. -/
structure GoError where
  isContextCanceled : Bool
  isContextDeadline : Bool
  dnsErr : Option DNSErrorInfo
  hostErr : Bool
  authErr : Bool
  certErr : Bool
  netErrTimeout : Option Bool
  opErr : Option OpErrorInfo
deriving DecidableEq, Repr

/-- Go's `strings.Contains(s, sub)`: some suffix of `s` has `sub` as a
prefix. -/
def strContains (s sub : String) : Bool :=
  s.data.tails.any (fun suffix => sub.data.isPrefixOf suffix)

/-- Embedding of `classifyTransportError` from src/main.go: the `switch`
checks its cases in textual order and the first matching case returns. -/
def classifyTransportError (err : GoError) : String :=
  if err.isContextCanceled then FailureContextCanceled
  else if err.isContextDeadline then FailureContextDeadline
  else match err.dnsErr with
  | some dnsErr =>
    if dnsErr.isNotFound then FailureDNSNotFound
    else if dnsErr.isTimeout then FailureDNSTimeout
    else FailureDNSError
  | none =>
    if err.hostErr then FailureTLSHostnameMismatch
    else if err.authErr then FailureTLSUntrustedCA
    else if err.certErr then FailureTLSCertInvalid
    else if err.netErrTimeout = some true then FailureTimeout
    else match err.opErr with
    | some opErr =>
      match opErr.errMsg with
      | some msg =>
        if strContains msg "connection refused" then FailureConnectionRefused
        else FailureNetworkError
      | none => FailureNetworkError
    | none => FailureUnknown

/-- Embedding of `classifyHTTPStatus` from src/main.go. -/
def classifyHTTPStatus (code : Int) : String :=
  if code ≥ 400 ∧ code < 500 then FailureHTTP4xx
  else if code ≥ 500 then FailureHTTP5xx
  else FailureNone

/-- The closed set of reason codes `classifyTransportError` can return,
in the precedence order of the `switch`. -/
def transportReasonCodes : List String :=
  [FailureContextCanceled, FailureContextDeadline,
   FailureDNSNotFound, FailureDNSTimeout, FailureDNSError,
   FailureTLSHostnameMismatch, FailureTLSUntrustedCA, FailureTLSCertInvalid,
   FailureTimeout, FailureConnectionRefused, FailureNetworkError,
   FailureUnknown]

/-- Go's `nil` error: every `errors.Is` / `errors.As` test in the switch
fails on a nil error value. -/
def nilGoError : GoError :=
  { isContextCanceled := false
    isContextDeadline := false
    dnsErr := none
    hostErr := false
    authErr := false
    certErr := false
    netErrTimeout := none
    opErr := none }

theorem classifyTransportError_mem (e : GoError) :
    classifyTransportError e ∈ transportReasonCodes := by
  unfold classifyTransportError
  repeat' split
  all_goals simp [transportReasonCodes]

theorem classifyTransportError_ne_none (e : GoError) :
    classifyTransportError e ≠ FailureNone := by
  intro h
  have hm := classifyTransportError_mem e
  rw [h] at hm
  simp [transportReasonCodes, FailureNone, FailureContextCanceled,
    FailureContextDeadline, FailureDNSNotFound, FailureDNSTimeout,
    FailureDNSError, FailureTLSHostnameMismatch, FailureTLSUntrustedCA,
    FailureTLSCertInvalid, FailureTimeout, FailureConnectionRefused,
    FailureNetworkError, FailureUnknown] at hm

/-- C1: the transport-failure classifier is total — every input yields
exactly one code from the closed taxonomy — and the switch's precedence
order makes the DNS branch win over every later rule: whenever the
cancellation and deadline cases do not match and the error matches
`*net.DNSError`, the result is the DNS sub-classification (`dns_not_found`,
then `dns_timeout`, then `dns_error`), never the generic `timeout`, no
matter which later rules (TLS, net.Error timeout, OpError) also match. -/
theorem classifyTransportError_total_precedence :
    (∀ e : GoError, classifyTransportError e ∈ transportReasonCodes) ∧
    (∀ (d : DNSErrorInfo) (h a c : Bool) (nt : Option Bool) (op : Option OpErrorInfo),
      classifyTransportError ⟨false, false, some d, h, a, c, nt, op⟩ =
        (if d.isNotFound then FailureDNSNotFound
         else if d.isTimeout then FailureDNSTimeout
         else FailureDNSError) ∧
      classifyTransportError ⟨false, false, some d, h, a, c, nt, op⟩ ≠ FailureTimeout) := by
  constructor
  · exact classifyTransportError_mem
  · intro d h a c nt op
    constructor
    · simp [classifyTransportError]
    · cases hnf : d.isNotFound <;> cases ht : d.isTimeout <;>
        simp [classifyTransportError, hnf, ht, FailureDNSNotFound,
          FailureDNSTimeout, FailureDNSError, FailureTimeout]

/-- C2: the HTTP classifier maps exactly at the documented boundaries:
399 is success (`none`), 400 and 499 are `http_4xx`, 500 and 599 are
`http_5xx`. -/
theorem classifyHTTPStatus_boundaries :
    classifyHTTPStatus 399 = FailureNone ∧
    classifyHTTPStatus 400 = FailureHTTP4xx ∧
    classifyHTTPStatus 499 = FailureHTTP4xx ∧
    classifyHTTPStatus 500 = FailureHTTP5xx ∧
    classifyHTTPStatus 599 = FailureHTTP5xx := by
  refine ⟨?_, ?_, ?_, ?_, ?_⟩ <;> decide

/-- C10: the nil error (absence of any error) matches no case of the
switch — every `errors.Is` / `errors.As` test fails on nil — so it falls
through to the default branch and is classified `unknown`, never
`none`/success. -/
theorem classifyTransportError_nil_unknown :
    classifyTransportError nilGoError = FailureUnknown ∧
    classifyTransportError nilGoError ≠ FailureNone := by
  constructor
  · decide
  · decide

/-- The result of `httpClient.Get(target)` inside `probe`: either a
transport error, or a response whose status code is the only part the
code inspects. -/
inductive RequestResult where
  | transportError (e : GoError)
  | response (statusCode : Int)
deriving DecidableEq, Repr

/-- The structured outcome of one probe: the `status` and `errorReason`
values `probe` computes for its metric labels. -/
structure ProbeOutcome where
  status : String
  reason : String
deriving DecidableEq, Repr

/-- The `status` / `errorReason` pair computed by `probe` in src/main.go:
both start as `success` / `none`; a transport error switches them to
`transport_error` and the transport classification; a status code ≥ 400
switches them to `http_error` and the HTTP classification. -/
def probeOutcome (res : RequestResult) : ProbeOutcome :=
  match res with
  | .transportError e =>
    { status := "transport_error", reason := classifyTransportError e }
  | .response code =>
    if code ≥ 400 then { status := "http_error", reason := classifyHTTPStatus code }
    else { status := "success", reason := FailureNone }

/-- One observable side effect of `probe` or of the goroutine wrapping it:
metric updates, the network request itself, and resource releases. -/
inductive Event where
  | incGauge
  | decGauge
  | incRequests (target : String)
  | httpRequest (target : String)
  | incErrors (reason : String)
  | observe (target status reason : String)
  | closeBody
  | releaseSlot
  | resetGuard
deriving DecidableEq, Repr

/-- The ordered side effects of `probe(target)` in src/main.go, for a given
request result.  The gauge is incremented first and its decrement is
deferred, so it runs last on every path; the request counter is incremented
before `httpClient.Get` is issued.  On the response path the deferred
`resp.Body.Close()` was registered after the gauge decrement, so it runs
before it (Go defers run last-in first-out). -/
def probeEvents (target : String) (res : RequestResult) : List Event :=
  match res with
  | .transportError e =>
    [.incGauge, .incRequests target, .httpRequest target,
     .incErrors (classifyTransportError e),
     .observe target "transport_error" (classifyTransportError e),
     .decGauge]
  | .response code =>
    [.incGauge, .incRequests target, .httpRequest target] ++
    (if code ≥ 400 then
      [.incErrors (classifyHTTPStatus code),
       .observe target "http_error" (classifyHTTPStatus code)]
    else
      [.observe target "success" FailureNone]) ++
    [.closeBody, .decGauge]

/-- The ordered side effects of the goroutine launched by
`startIndividualProber`: it runs `probe(target)` and then its deferred
calls in last-in first-out order — `defer running.Store(false)` was
registered first and `defer func() \x7b <-globalSem \x7d()` second, so on
completion the slot is released back to the pool first and the overlap
guard is reset to false after. -/
def goroutineEvents (target : String) (res : RequestResult) : List Event :=
  probeEvents target res ++ [.releaseSlot, .resetGuard]

/-- Tests whether an event is an increment of the reason-keyed error
counter `probeErrorsTotal`. -/
def isIncErrors : Event → Bool
  | .incErrors _ => true
  | _ => false

/-- Tests whether an event is an increment of the per-target request
counter `pingCount`. -/
def isIncRequests : Event → Bool
  | .incRequests _ => true
  | _ => false

/-- C3: every probe outcome carries exactly one reason code and the code
`none` occurs exactly on success: `classifyTransportError` never returns
`none`, so a `transport_error` outcome never has reason `none`, and an
`http_error` outcome (status code ≥ 400) never has reason `none` either. -/
theorem probeOutcome_reason_none_iff_success :
    (∀ e : GoError, classifyTransportError e ≠ FailureNone) ∧
    (∀ res : RequestResult,
      ((probeOutcome res).reason = FailureNone ↔ (probeOutcome res).status = "success")) := by
  refine ⟨classifyTransportError_ne_none, ?_⟩
  intro res
  match res with
  | .transportError e =>
    simp only [probeOutcome]
    constructor
    · intro h
      exact absurd h (classifyTransportError_ne_none e)
    · intro h
      exact absurd h (by decide)
  | .response code =>
    by_cases hc : code ≥ 400
    · have h45 : code < 500 ∨ code ≥ 500 := by omega
      simp only [probeOutcome, if_pos hc]
      constructor
      · intro h
        exfalso
        rcases h45 with h5 | h5
        · rw [classifyHTTPStatus, if_pos ⟨hc, h5⟩] at h
          exact absurd h (by decide)
        · rw [classifyHTTPStatus, if_neg (by omega), if_pos h5] at h
          exact absurd h (by decide)
      · intro h
        exact absurd h (by decide)
    · simp [probeOutcome, if_neg hc]

/-- C4: on every executed probe, for every request result, the per-target
request counter is incremented exactly once, and the increment precedes
the network request event, so it happens whether the probe later succeeds
or fails. -/
theorem probe_request_counter_once_before_request :
    ∀ (target : String) (res : RequestResult),
      (probeEvents target res).countP (fun e => isIncRequests e) = 1 ∧
      List.Sublist [Event.incRequests target, Event.httpRequest target]
        (probeEvents target res) := by
  intro target res
  match res with
  | .transportError e =>
    constructor
    · simp [probeEvents, isIncRequests, List.countP_cons]
    · simp [probeEvents]
  | .response code =>
    constructor
    · by_cases hc : code ≥ 400 <;>
        simp [probeEvents, isIncRequests, hc, List.countP_cons, List.countP_append]
    · simp only [probeEvents]
      refine List.Sublist.cons _ ?_
      refine List.Sublist.cons₂ _ (List.Sublist.cons₂ _ (List.nil_sublist _))

/-- C5: the reason-keyed error counter is incremented exactly once per
executed probe whose outcome is not success (transport error or HTTP
status ≥ 400), and never on a success outcome (HTTP status below 400). -/
theorem probe_error_counter_iff_failure :
    ∀ (target : String) (res : RequestResult),
      (probeEvents target res).countP (fun e => isIncErrors e) =
        (if (probeOutcome res).status = "success" then 0 else 1) := by
  intro target res
  match res with
  | .transportError e =>
    have : (probeOutcome (RequestResult.transportError e)).status = "transport_error" := rfl
    rw [this]
    simp [probeEvents, isIncErrors, List.countP_cons]
  | .response code =>
    by_cases hc : code ≥ 400
    · have : (probeOutcome (RequestResult.response code)).status = "http_error" := by
        simp [probeOutcome, if_pos hc]
      rw [this]
      simp [probeEvents, isIncErrors, hc, List.countP_cons, List.countP_append]
    · have : (probeOutcome (RequestResult.response code)).status = "success" := by
        simp [probeOutcome, if_neg hc]
      rw [this]
      simp [probeEvents, isIncErrors, hc, List.countP_cons, List.countP_append]

/-- C7: whatever the probe's result (success, transport error or HTTP
error), the completing goroutine performs exactly one slot release and
exactly one guard reset, and the slot release precedes the guard reset
(Go runs the deferred guard reset, registered first, after the deferred
slot release, registered second). -/
theorem goroutine_releases_slot_then_resets_guard :
    ∀ (target : String) (res : RequestResult),
      (goroutineEvents target res).count Event.releaseSlot = 1 ∧
      (goroutineEvents target res).count Event.resetGuard = 1 ∧
      List.Sublist [Event.releaseSlot, Event.resetGuard]
        (goroutineEvents target res) := by
  intro target res
  refine ⟨?_, ?_, ?_⟩
  · match res with
    | .transportError e =>
      simp [goroutineEvents, probeEvents, List.count_append, List.count_cons]
    | .response code =>
      by_cases hc : code ≥ 400 <;>
        simp [goroutineEvents, probeEvents, hc, List.count_append, List.count_cons]
  · match res with
    | .transportError e =>
      simp [goroutineEvents, probeEvents, List.count_append, List.count_cons]
    | .response code =>
      by_cases hc : code ≥ 400 <;>
        simp [goroutineEvents, probeEvents, hc, List.count_append, List.count_cons]
  · exact List.sublist_append_right _ _

/-- What a single tick of `startIndividualProber` decides to do. -/
inductive TickOutcome where
  | skippedGuard
  | skippedSem
  | launched
deriving DecidableEq, Repr

/-- The state a tick of one target's scheduler loop reads and writes:
that target's overlap guard (`running`) and the number of slots of the
global pool currently held (the number of values buffered in
`globalSem`). -/
structure TickState where
  running : Bool
  slotsHeld : Nat
deriving DecidableEq, Repr

/-- One tick of the loop body in `startIndividualProber`: the
`CompareAndSwap(false, true)` on the guard fails iff the guard is already
true and the tick is skipped; otherwise the non-blocking `select` sends
into `globalSem`, which succeeds iff fewer than `GlobalSlotSize` slots
are held; if the pool is full the `default` branch stores `false` back
into the guard and skips the tick; otherwise the probe goroutine is
launched with the guard held and one more slot taken. -/
def tick (s : TickState) : TickOutcome × TickState :=
  if s.running then (.skippedGuard, s)
  else if s.slotsHeld < GlobalSlotSize then (.launched, ⟨true, s.slotsHeld + 1⟩)
  else (.skippedSem, ⟨false, s.slotsHeld⟩)

/-- The side effects a tick produces: a launched tick eventually runs the
full probe goroutine; a skipped tick runs nothing. -/
def tickEvents (s : TickState) (target : String) (res : RequestResult) : List Event :=
  match (tick s).1 with
  | .launched => goroutineEvents target res
  | _ => []

/-- C6: on a tick where the guard compare-and-set succeeded (guard was
false) but the pool is full, the tick is skipped atomically: the outcome
is `skippedSem`, the guard is back to false, the slot count is unchanged,
and the tick produces no events at all — no probe invocation and zero
metric updates; nothing is deferred to later. -/
theorem tick_pool_full_skips_and_releases_guard
    (s : TickState) (target : String) (res : RequestResult)
    (hguard : s.running = false) (hfull : GlobalSlotSize ≤ s.slotsHeld) :
    (tick s).1 = TickOutcome.skippedSem ∧
    (tick s).2.running = false ∧
    (tick s).2.slotsHeld = s.slotsHeld ∧
    tickEvents s target res = [] := by
  have hnot : ¬ s.slotsHeld < GlobalSlotSize := by omega
  refine ⟨?_, ?_, ?_, ?_⟩ <;>
    simp [tick, tickEvents, hguard, hnot]

/-- Witness for C6 at a concrete state: guard free, all ten slots held. -/
theorem tick_pool_full_skips_and_releases_guard_witness :
    (tick ⟨false, 10⟩).1 = TickOutcome.skippedSem ∧
    (tick ⟨false, 10⟩).2.running = false ∧
    (tick ⟨false, 10⟩).2.slotsHeld = (⟨false, 10⟩ : TickState).slotsHeld ∧
    tickEvents ⟨false, 10⟩ "https://www.google.com" (.response 200) = [] :=
  tick_pool_full_skips_and_releases_guard ⟨false, 10⟩ "https://www.google.com"
    (.response 200) rfl (by decide)

/-- Global scheduler state across all targets: each target's overlap
guard, and the multiset of targets with a probe currently in flight.
Each in-flight probe holds exactly one slot of the global pool, so the
number of held slots is the length of `inFlight`. -/
structure SchedState where
  running : String → Bool
  inFlight : List String

/-- Pointwise update of the per-target guard map. -/
def setGuard (f : String → Bool) (t : String) (b : Bool) : String → Bool :=
  fun x => if x = t then b else f x

/-- Initial state: no guard held, no probe in flight. -/
def initSched : SchedState :=
  { running := fun _ => false, inFlight := [] }

/-- One atomic step of the whole system, combining the three possible
effects of a tick of any target's `startIndividualProber` loop and the
completion of any in-flight probe goroutine:
`launch` — the guard CAS succeeded and the non-blocking send into
`globalSem` succeeded (fewer than `GlobalSlotSize` slots held), so the
probe goroutine starts with the guard true and one more slot held;
`skipGuard` — the CAS failed because a probe for the target is still
running, nothing changes;
`skipSem` — the CAS succeeded but the pool was full, so the guard is
stored back to false: the state is unchanged overall;
`complete` — an in-flight probe finishes, releasing its slot and
resetting its target's guard. -/
inductive SchedStep : SchedState → SchedState → Prop where
  | launch (s : SchedState) (t : String) :
      s.running t = false →
      s.inFlight.length < GlobalSlotSize →
      SchedStep s ⟨setGuard s.running t true, t :: s.inFlight⟩
  | skipGuard (s : SchedState) (t : String) :
      s.running t = true →
      SchedStep s s
  | skipSem (s : SchedState) (t : String) :
      s.running t = false →
      GlobalSlotSize ≤ s.inFlight.length →
      SchedStep s s
  | complete (s : SchedState) (t : String) :
      t ∈ s.inFlight →
      SchedStep s ⟨setGuard s.running t false, s.inFlight.erase t⟩

/-- States reachable from the initial scheduler state. -/
def SchedReachable (s : SchedState) : Prop :=
  Relation.ReflTransGen SchedStep initSched s

/-- The scheduler invariant: never more in-flight probes than pool slots,
at most one in-flight probe per target, and a target with a probe in
flight has its overlap guard held. -/
def SchedInv (s : SchedState) : Prop :=
  s.inFlight.length ≤ GlobalSlotSize ∧
  ∀ t : String, s.inFlight.count t ≤ 1 ∧
    (0 < s.inFlight.count t → s.running t = true)

theorem schedInv_init : SchedInv initSched := by
  refine ⟨by simp [initSched, GlobalSlotSize], ?_⟩
  intro t
  simp [initSched]

theorem schedInv_step {s s' : SchedState} (hinv : SchedInv s)
    (hstep : SchedStep s s') : SchedInv s' := by
  obtain ⟨hlen, hcnt⟩ := hinv
  cases hstep with
  | launch t hg hfree =>
    constructor
    · simpa using hfree
    · intro u
      by_cases hu : u = t
      · subst hu
        have h0 : s.inFlight.count u = 0 := by
          rcases Nat.eq_zero_or_pos (s.inFlight.count u) with h | h
          · exact h
          · exact absurd ((hcnt u).2 h) (by simp [hg])
        constructor
        · show (u :: s.inFlight).count u ≤ 1
          rw [List.count_cons_self, h0]
        · intro _
          simp [setGuard]
      · have hc : (t :: s.inFlight).count u = s.inFlight.count u :=
          List.count_cons_of_ne hu s.inFlight
        constructor
        · show (t :: s.inFlight).count u ≤ 1
          rw [hc]; exact (hcnt u).1
        · intro hpos
          have hpos' : 0 < s.inFlight.count u := by
            rw [show List.count u (t :: s.inFlight) = s.inFlight.count u from hc] at hpos
            exact hpos
          have := (hcnt u).2 hpos'
          simpa [setGuard, hu] using this
  | skipGuard t hg =>
    exact ⟨hlen, hcnt⟩
  | skipSem t hg hfull =>
    exact ⟨hlen, hcnt⟩
  | complete t hmem =>
    constructor
    · calc (s.inFlight.erase t).length ≤ s.inFlight.length :=
            List.length_erase_le t s.inFlight
        _ ≤ GlobalSlotSize := hlen
    · intro u
      by_cases hu : u = t
      · subst hu
        have h1 : s.inFlight.count u = 1 :=
          Nat.le_antisymm (hcnt u).1 (List.one_le_count_iff.mpr hmem)
        have h0 : (s.inFlight.erase u).count u = 0 := by
          rw [List.count_erase_self, h1]
        constructor
        · show (s.inFlight.erase u).count u ≤ 1
          rw [h0]; exact Nat.zero_le 1
        · intro hpos
          rw [show (s.inFlight.erase u).count u = 0 from h0] at hpos
          exact absurd hpos (by simp)
      · have hc : (s.inFlight.erase t).count u = s.inFlight.count u :=
          List.count_erase_of_ne hu s.inFlight
        constructor
        · show (s.inFlight.erase t).count u ≤ 1
          rw [hc]; exact (hcnt u).1
        · intro hpos
          rw [show (s.inFlight.erase t).count u = s.inFlight.count u from hc] at hpos
          have := (hcnt u).2 hpos
          simpa [setGuard, hu] using this

theorem schedInv_reachable {s : SchedState} (h : SchedReachable s) : SchedInv s := by
  induction h with
  | refl => exact schedInv_init
  | tail _ hstep ih => exact schedInv_step ih hstep

/-- C8: in every reachable scheduler state, for any set of targets, at
most `GlobalSlotSize = 10` probes are in flight system-wide: each running
probe holds one slot of the fixed-capacity pool from launch to
completion. -/
theorem global_concurrency_bound (s : SchedState) (h : SchedReachable s) :
    s.inFlight.length ≤ GlobalSlotSize :=
  (schedInv_reachable h).1

/-- Witness for C8 at the initial state, which is trivially reachable. -/
theorem global_concurrency_bound_witness :
    initSched.inFlight.length ≤ GlobalSlotSize :=
  global_concurrency_bound initSched Relation.ReflTransGen.refl

/-- C9: in every reachable scheduler state, no target ever has two probes
in flight at once, and a target with a probe in flight holds its overlap
guard (set by the successful compare-and-set at tick time and cleared
only when the probe completes), so a second probe for that target cannot
start meanwhile. -/
theorem per_target_overlap_bound (s : SchedState) (h : SchedReachable s)
    (t : String) :
    s.inFlight.count t ≤ 1 ∧ (0 < s.inFlight.count t → s.running t = true) :=
  (schedInv_reachable h).2 t

/-- Witness for C9 at the initial state and a concrete target. -/
theorem per_target_overlap_bound_witness :
    initSched.inFlight.count "https://www.google.com" ≤ 1 ∧
    (0 < initSched.inFlight.count "https://www.google.com" →
      initSched.running "https://www.google.com" = true) :=
  per_target_overlap_bound initSched Relation.ReflTransGen.refl "https://www.google.com"

end Netpulse
